import Mathlib

/-!
Verification of the mProxy example front-end (hysios/broker):
a shallow embedding of `example/main.go` (configuration loading, listener
orchestration, the shared shutdown channel) and of the supplied
handler implementation, with theorems checking the specification's claims.
External collaborators (the broker relay's Listen methods, the WebSocket
proxy's Listen methods, the TLS material loader, the OS signal delivery)
are abstracted as parameters: only their observable outcomes matter here.
-/

namespace Mproxy

/-! ### Environment model

A POSIX process environment maps a variable name either to a string value
(possibly empty) or to nothing at all.  Go's `os.Getenv` conflates the two:
it returns `""` both for an unset variable and for one set to the empty
string. -/

def Env : Type := String → Option String

/-- Model of Go `os.Getenv`: the value of a set variable, `""` when unset. -/
def Getenv (e : Env) (key : String) : String :=
  (e key).getD ""

/-- `env` from `example/main.go`: return the variable's value when
`os.Getenv` yields a non-empty string, otherwise the fallback. -/
def env (e : Env) (key fallback : String) : String :=
  let v := Getenv e key
  if v ≠ "" then v else fallback

/-- Model of Go `strconv.ParseBool`: accepts exactly
1, t, T, TRUE, true, True, 0, f, F, FALSE, false, False. -/
def ParseBool (s : String) : Option Bool :=
  if s = "1" ∨ s = "t" ∨ s = "T" ∨ s = "TRUE" ∨ s = "true" ∨ s = "True" then
    some true
  else if s = "0" ∨ s = "f" ∨ s = "F" ∨ s = "FALSE" ∨ s = "false" ∨ s = "False" then
    some false
  else
    none

/-! ### Configuration constants (the `const` block of `example/main.go`) -/

def defWSHost : String := "0.0.0.0"
def defWSPath : String := "/mqtt"
def defWSPort : String := "8083"
def defWSSPath : String := "/mqtt"
def defWSSPort : String := "8081"
def defWSTargetScheme : String := "ws"
def defWSTargetHost : String := "localhost"
def defWSTargetPort : String := "8888"
def defWSTargetPath : String := "/mqtt"

def envWSHost : String := "MPROXY_WS_HOST"
def envWSPort : String := "MPROXY_WS_PORT"
def envWSPath : String := "MPROXY_WS_PATH"
def envWSSPort : String := "MPROXY_WSS_PORT"
def envWSSPath : String := "MPROXY_WSS_PATH"
def envWSTargetScheme : String := "MPROXY_WS_TARGET_SCHEME"
def envWSTargetHost : String := "MPROXY_WS_TARGET_HOST"
def envWSTargetPort : String := "MPROXY_WS_TARGET_PORT"
def envWSTargetPath : String := "MPROXY_WS_TARGET_PATH"

def defMQTTHost : String := "0.0.0.0"
def defMQTTPort : String := "1884"
def defMQTTSPort : String := "8883"
def defMQTTTargetHost : String := "120.79.85.236"
def defMQTTTargetPort : String := "1883"
def defCACerts : String := ""
def defServerCert : String := ""
def defServerKey : String := ""

def envMQTTHost : String := "MPROXY_MQTT_HOST"
def envMQTTPort : String := "MPROXY_MQTT_PORT"
def envMQTTSPort : String := "MPROXY_MQTTS_PORT"
def envMQTTTargetHost : String := "MPROXY_MQTT_TARGET_HOST"
def envMQTTTargetPort : String := "MPROXY_MQTT_TARGET_PORT"
def envCACerts : String := "MPROXY_CA_CERTS"
def envServerCert : String := "MPROXY_SERVER_CERT"
def envServerKey : String := "MPROXY_SERVER_KEY"

def defClientTLS : String := "false"
def envClientTLS : String := "MPROXY_CLIENT_TLS"
def defLogLevel : String := "debug"
def envLogLevel : String := "MPROXY_LOG_LEVEL"

/-- The `config` struct of `example/main.go`. -/
structure config where
  wsHost : String
  wsPort : String
  wsPath : String
  wssPort : String
  wssPath : String
  wsTargetScheme : String
  wsTargetHost : String
  wsTargetPort : String
  wsTargetPath : String
  mqttHost : String
  mqttPort : String
  mqttsPort : String
  mqttTargetHost : String
  mqttTargetPort : String
  clientTLS : Bool
  caCerts : String
  serverCert : String
  serverKey : String
  logLevel : String
deriving DecidableEq, Repr

/-- `loadConfig` from `example/main.go`.  `log.Fatalf` terminates the
process, modelled as `none`: no configuration is ever produced and the
caller (`main`) never runs. -/
def loadConfig (e : Env) : Option config :=
  (ParseBool (env e envClientTLS defClientTLS)).map fun tls =>
    { wsHost := env e envWSHost defWSHost
      wsPort := env e envWSPort defWSPort
      wsPath := env e envWSPath defWSPath
      wssPort := env e envWSSPort defWSSPort
      wssPath := env e envWSSPath defWSSPath
      wsTargetScheme := env e envWSTargetScheme defWSTargetScheme
      wsTargetHost := env e envWSTargetHost defWSTargetHost
      wsTargetPort := env e envWSTargetPort defWSTargetPort
      wsTargetPath := env e envWSTargetPath defWSTargetPath
      mqttHost := env e envMQTTHost defMQTTHost
      mqttPort := env e envMQTTPort defMQTTPort
      mqttsPort := env e envMQTTSPort defMQTTSPort
      mqttTargetHost := env e envMQTTTargetHost defMQTTTargetHost
      mqttTargetPort := env e envMQTTTargetPort defMQTTTargetPort
      clientTLS := tls
      caCerts := env e envCACerts defCACerts
      serverCert := env e envServerCert defServerCert
      serverKey := env e envServerKey defServerKey
      logLevel := env e envLogLevel defLogLevel }

/-! ### Orchestration model (`main` of `example/main.go`)

`main` builds the configuration, creates the shared `errs` channel of
capacity 3, branches on `cfg.clientTLS`, spawns the chosen listener pair
and the interrupt-signal watcher, then performs a single receive and one
error log.  We record its behaviour as a trace of actions; the external
TLS loader is a parameter producing either a TLS configuration or an
error string. -/

/-- Opaque stand-in for Go's `*tls.Config` produced by `mptls.LoadTLSCfg`. -/
structure TLSCfg where
deriving DecidableEq, Repr

/-- The four listeners `main` can start. -/
inductive Listener where
  | WS
  | WSS
  | MQTT
  | MQTTS
deriving DecidableEq, Repr

/-- One observable step of `main`: spawning a listener goroutine, sending
on the `errs` channel, spawning the signal watcher, receiving from `errs`,
or logging the terminal error. -/
inductive MainAction where
  | startListener (l : Listener)
  | send (e : String)
  | spawnWatcher
  | recv (e : String)
  | logError (s : String)
deriving DecidableEq, Repr

/-- Trace of `main` after `loadConfig` succeeded.  `load` abstracts
`mptls.LoadTLSCfg`, applied to the CA bundle, server certificate and
server key paths of the configuration; `observed` is the value the final
`<-errs` receive yields.  Mirrors `example/main.go` lines 97-127: on a
TLS-load error the error is sent to `errs` and execution falls through to
start the WSS and MQTTS listeners anyway. -/
def mainTrace (cfg : config) (load : String → String → String → Except String TLSCfg)
    (observed : String) : List MainAction :=
  (if cfg.clientTLS then
    (match load cfg.caCerts cfg.serverCert cfg.serverKey with
      | Except.error e => [MainAction.send e]
      | Except.ok _ => [])
    ++ [MainAction.startListener Listener.WSS, MainAction.startListener Listener.MQTTS]
  else
    [MainAction.startListener Listener.WS, MainAction.startListener Listener.MQTT])
  ++ [MainAction.spawnWatcher,
      MainAction.recv observed,
      MainAction.logError ("mProxy terminated: " ++ observed)]

/-- The whole process: `loadConfig` first (`none` = `log.Fatalf`
terminated the process before `main`'s body ran), then `main`'s trace. -/
def runMain (e : Env) (load : String → String → String → Except String TLSCfg)
    (observed : String) : Option (List MainAction) :=
  (loadConfig e).map fun cfg => mainTrace cfg load observed

/-- The listeners started along a trace, in order. -/
def startedListeners : List MainAction → List Listener
  | [] => []
  | MainAction.startListener l :: rest => l :: startedListeners rest
  | _ :: rest => startedListeners rest

/-- Whether an action is the `<-errs` receive. -/
def isRecv : MainAction → Bool
  | MainAction.recv _ => true
  | _ => false

/-- The actions following the first receive in a trace. -/
def afterRecv : List MainAction → List MainAction
  | [] => []
  | MainAction.recv _ :: rest => rest
  | _ :: rest => afterRecv rest

/-- FIFO receive from the channel's buffered queue: blocks (no result) on
an empty queue, otherwise consumes exactly the oldest value. -/
def recvOne : List String → Option (String × List String)
  | [] => none
  | e :: rest => some (e, rest)

/-! ### The shared shutdown channel (`errs = make(chan error, 3)`) -/

/-- Capacity of the shared shutdown channel in `example/main.go`. -/
def chanCap : Nat := 3

/-- Perform a sequence of sends on the buffered channel with no
intervening receives: `none` as soon as a send would block. -/
def sendAll : List String → List String → Option (List String)
  | buf, [] => some buf
  | buf, e :: rest =>
    if buf.length < chanCap then sendAll (buf ++ [e]) rest else none

/-- The concurrent tasks that may write a terminal outcome into the
shutdown channel. -/
inductive TerminalSource where
  | wsListener
  | wssListener
  | mqttListener
  | mqttsListener
  | watcher
deriving DecidableEq, Repr

/-- The concurrent terminal sources spawned in each branch of `main`:
the branch's two listener goroutines plus the signal watcher. -/
def branchSenders (clientTLS : Bool) : List TerminalSource :=
  if clientTLS then
    [TerminalSource.wssListener, TerminalSource.mqttsListener, TerminalSource.watcher]
  else
    [TerminalSource.wsListener, TerminalSource.mqttListener, TerminalSource.watcher]

/-! ### Handler (`src/unnamed/part_000`) and the session client -/

/-- Modelled from the spec: `session.Client` lives outside the example
sources; §3 gives it a stable identifier, a username, an authentication
secret, and the peer certificate's subject (its common name is what the
handler reads). -/
structure Client where
  id : String
  username : String
  password : String
  certCN : String
deriving DecidableEq, Repr

/-- The supplied `Handler` struct: it has no fields. -/
structure Handler where
deriving DecidableEq, Repr

/-- `New` from `src/unnamed/part_000`. -/
def New : Handler := {}

/-- Result of a pre-action gate: the log line it emits and the error it
returns (`none` = Go `nil`). -/
structure AuthResult where
  logLine : String
  err : Option String
deriving DecidableEq, Repr

/-- `Handler.AuthConnect`: logs the client data and returns nil. -/
def Handler.AuthConnect (_ : Handler) (c : Client) : AuthResult :=
  { logLine := "AuthConnect() - clientID: " ++ c.id ++ ", username: " ++ c.username
      ++ ", password: " ++ c.password ++ ", client_CN: " ++ c.certCN
    err := none }

/-- `Handler.AuthPublish`: logs the publish data and returns nil. -/
def Handler.AuthPublish (_ : Handler) (c : Client) (topic : String)
    (payload : String) : AuthResult :=
  { logLine := "AuthPublish() - clientID: " ++ c.id ++ ", topic: " ++ topic
      ++ ", payload: " ++ payload
    err := none }

/-- `Handler.AuthSubscribe`: logs the topic list and returns nil. -/
def Handler.AuthSubscribe (_ : Handler) (c : Client) (topics : List String) : AuthResult :=
  { logLine := "AuthSubscribe() - clientID: " ++ c.id ++ ", topics: "
      ++ String.intercalate "," topics
    err := none }

/-- `Handler.Connect` notification: only a log line. -/
def Handler.Connect (_ : Handler) (c : Client) : String :=
  "Connect() - username: " ++ c.username ++ ", clientID: " ++ c.id

/-- `Handler.Publish` notification. -/
def Handler.Publish (_ : Handler) (c : Client) (topic : String) (payload : String) : String :=
  "Publish() - username: " ++ c.username ++ ", clientID: " ++ c.id
    ++ ", topic: " ++ topic ++ ", payload: " ++ payload

/-- `Handler.Subscribe` notification. -/
def Handler.Subscribe (_ : Handler) (c : Client) (topics : List String) : String :=
  "Subscribe() - username: " ++ c.username ++ ", clientID: " ++ c.id
    ++ ", topics: " ++ String.intercalate "," topics

/-- `Handler.Unsubscribe` notification. -/
def Handler.Unsubscribe (_ : Handler) (c : Client) (topics : List String) : String :=
  "Unsubscribe() - username: " ++ c.username ++ ", clientID: " ++ c.id
    ++ ", topics: " ++ String.intercalate "," topics

/-- `Handler.Disconnect` notification. -/
def Handler.Disconnect (_ : Handler) (c : Client) : String :=
  "Disconnect() - client with username: " ++ c.username ++ " and ID: "
    ++ c.id ++ " disconenected"

/-! ### The proxy goroutines (`proxyWS`, `proxyWSS`, `proxyMQTT`, `proxyMQTTS`)

Each builds its proxy object from the configuration and performs exactly
one send on `errs`: the result of its (external) listen call, abstracted
as a function argument. -/

/-- The WebSocket proxy object built by `websocket.New`. -/
structure wsProxy where
  target : String
  path : String
  scheme : String
  handler : Handler
deriving DecidableEq, Repr

/-- `websocket.New` as used by the example. -/
def websocketNew (target path scheme : String) (h : Handler) : wsProxy :=
  { target := target, path := path, scheme := scheme, handler := h }

/-- The MQTT proxy object built by `broker.New`. -/
structure mqttProxy where
  address : String
  target : String
  handler : Handler
deriving DecidableEq, Repr

/-- `broker.New` as used by the example. -/
def brokerNew (address target : String) (h : Handler) : mqttProxy :=
  { address := address, target := target, handler := h }

/-- What a proxy goroutine does: the HTTP paths it mounts and the channel
sends it performs. -/
structure ProxyRun where
  mounts : List String
  sends : List String
deriving DecidableEq, Repr

/-- `proxyWS`: mount the WS path, send the result of `wp.Listen(wsPort)`. -/
def proxyWS (cfg : config) (h : Handler) (listen : wsProxy → String → String) : ProxyRun :=
  let target := cfg.wsTargetHost ++ ":" ++ cfg.wsTargetPort
  let wp := websocketNew target cfg.wsTargetPath cfg.wsTargetScheme h
  { mounts := [cfg.wsPath], sends := [listen wp cfg.wsPort] }

/-- `proxyWSS`: mount the WSS path, send the result of
`wp.ListenTLS(tlsCfg, serverCert, serverKey, wssPort)`. -/
def proxyWSS (cfg : config) (tlsCfg : TLSCfg) (h : Handler)
    (listenTLS : wsProxy → TLSCfg → String → String → String → String) : ProxyRun :=
  let target := cfg.wsTargetHost ++ ":" ++ cfg.wsTargetPort
  let wp := websocketNew target cfg.wsTargetPath cfg.wsTargetScheme h
  { mounts := [cfg.wssPath],
    sends := [listenTLS wp tlsCfg cfg.serverCert cfg.serverKey cfg.wssPort] }

/-- `proxyMQTT`: send the result of `mp.Listen()`. -/
def proxyMQTT (cfg : config) (h : Handler) (listen : mqttProxy → String) : ProxyRun :=
  let address := cfg.mqttHost ++ ":" ++ cfg.mqttPort
  let target := cfg.mqttTargetHost ++ ":" ++ cfg.mqttTargetPort
  { mounts := [], sends := [listen (brokerNew address target h)] }

/-- `proxyMQTTS`: send the result of `mp.ListenTLS(tlsCfg)`. -/
def proxyMQTTS (cfg : config) (tlsCfg : TLSCfg) (h : Handler)
    (listenTLS : mqttProxy → TLSCfg → String) : ProxyRun :=
  let address := cfg.mqttHost ++ ":" ++ cfg.mqttsPort
  let target := cfg.mqttTargetHost ++ ":" ++ cfg.mqttTargetPort
  { mounts := [], sends := [listenTLS (brokerNew address target h) tlsCfg] }

/-- The interrupt-signal watcher goroutine: blocks for one signal, then
sends its description (`fmt.Errorf("%s", <-c)`) once. -/
def signalWatcher (receivedSignal : String) : List String :=
  [receivedSignal]

/-! ### Concrete inputs used by the theorems below -/

/-- The environment with every variable unset. -/
def envAllUnset : Env := fun _ => none

/-- The configuration produced when every variable is unset: all defaults. -/
def defaultCfg : config :=
  { wsHost := defWSHost, wsPort := defWSPort, wsPath := defWSPath
    wssPort := defWSSPort, wssPath := defWSSPath
    wsTargetScheme := defWSTargetScheme, wsTargetHost := defWSTargetHost
    wsTargetPort := defWSTargetPort, wsTargetPath := defWSTargetPath
    mqttHost := defMQTTHost, mqttPort := defMQTTPort, mqttsPort := defMQTTSPort
    mqttTargetHost := defMQTTTargetHost, mqttTargetPort := defMQTTTargetPort
    clientTLS := false, caCerts := defCACerts, serverCert := defServerCert
    serverKey := defServerKey, logLevel := defLogLevel }

/-- Environment of the failing TLS scenario: TLS mode enabled, malformed
server key path. -/
def badTLSEnv : Env := fun k =>
  if k = envClientTLS then some "true"
  else if k = envServerKey then some "/bad/server.key"
  else none

/-- The loader error for the malformed key path. -/
def keyLoadErr : String := "open /bad/server.key: no such file or directory"

/-- `mptls.LoadTLSCfg` outcome when the server key file cannot be read. -/
def failingLoad : String → String → String → Except String TLSCfg :=
  fun _ _ _ => Except.error keyLoadErr

/-! ### Claims -/

/-- Claim C1: the spec requires that when TLS mode is enabled and loading
the TLS material fails, startup fails before any listener is started.  The
code violates this: `main` sends the load error on `errs` and then falls
through to start the WSS and MQTTS listener goroutines anyway.  At the
failing input (TLS enabled, unreadable server key) the run still starts
both TLS listeners, with the load error merely queued first. -/
theorem C1_tls_load_failure_still_starts_listeners :
    (runMain badTLSEnv failingLoad keyLoadErr).map startedListeners
        = some [Listener.WSS, Listener.MQTTS] ∧
    runMain badTLSEnv failingLoad keyLoadErr
        = some [MainAction.send keyLoadErr,
                MainAction.startListener Listener.WSS,
                MainAction.startListener Listener.MQTTS,
                MainAction.spawnWatcher,
                MainAction.recv keyLoadErr,
                MainAction.logError ("mProxy terminated: " ++ keyLoadErr)] ∧
    (runMain badTLSEnv failingLoad keyLoadErr).map startedListeners
        ≠ some ([] : List Listener) := by
  refine ⟨by decide, by decide, by decide⟩

/-- Claim C2: exactly one branch of listeners is started per invocation:
with the TLS flag false only the plaintext WS and MQTT listeners start,
with it true only the WSS and MQTTS listeners start — never both branches,
never neither. -/
theorem C2_branch_exclusive (cfg : config)
    (load : String → String → String → Except String TLSCfg) (observed : String) :
    startedListeners (mainTrace cfg load observed)
        = (if cfg.clientTLS then [Listener.WSS, Listener.MQTTS]
           else [Listener.WS, Listener.MQTT]) ∧
    startedListeners (mainTrace cfg load observed) ≠ [] ∧
    (Listener.WS ∈ startedListeners (mainTrace cfg load observed) ↔ cfg.clientTLS = false) ∧
    (Listener.MQTT ∈ startedListeners (mainTrace cfg load observed) ↔ cfg.clientTLS = false) ∧
    (Listener.WSS ∈ startedListeners (mainTrace cfg load observed) ↔ cfg.clientTLS = true) ∧
    (Listener.MQTTS ∈ startedListeners (mainTrace cfg load observed) ↔ cfg.clientTLS = true) := by
  cases hc : cfg.clientTLS <;>
    cases hl : load cfg.caCerts cfg.serverCert cfg.serverKey <;>
      simp [mainTrace, startedListeners, hc, hl]

/-- Claim C3: an environment in which the TLS boolean variable does not
parse as a boolean makes configuration loading fatal: the process
terminates during `loadConfig` and no listener is ever started (the run
produces no trace at all). -/
theorem C3_invalid_bool_is_fatal (e : Env)
    (load : String → String → String → Except String TLSCfg) (observed : String)
    (h : ParseBool (env e envClientTLS defClientTLS) = none) :
    runMain e load observed = none := by
  simp [runMain, loadConfig, h]

/-- The environment mapping `MPROXY_CLIENT_TLS` to the unparsable `"yes"`. -/
def invalidBoolEnv : Env := fun k =>
  if k = envClientTLS then some "yes" else none

/-- Witness for C3 at the concrete environment `MPROXY_CLIENT_TLS=yes`. -/
theorem C3_invalid_bool_is_fatal_witness :
    ParseBool (env invalidBoolEnv envClientTLS defClientTLS) = none ∧
    runMain invalidBoolEnv (fun _ _ _ => Except.ok {}) "interrupt" = none :=
  ⟨by decide,
   C3_invalid_bool_is_fatal invalidBoolEnv (fun _ _ _ => Except.ok {}) "interrupt" (by decide)⟩

/-- Claim C4: the orchestrator blocks until one terminal outcome is
available on the shutdown channel, consumes exactly that one value,
reports it and exits: the trace holds exactly one receive, of the queue's
oldest value; one element leaves the queue; and after the receive the only
remaining action is the terminal error log — in particular no listener is
started (restarted) after the terminal outcome. -/
theorem C4_orchestrator_single_receive (cfg : config)
    (load : String → String → String → Except String TLSCfg)
    (q : List String) (e : String) (rest : List String)
    (h : recvOne q = some (e, rest)) :
    (mainTrace cfg load e).filter isRecv = [MainAction.recv e] ∧
    rest.length + 1 = q.length ∧
    afterRecv (mainTrace cfg load e) = [MainAction.logError ("mProxy terminated: " ++ e)] := by
  cases q with
  | nil => simp [recvOne] at h
  | cons x xs =>
    simp only [recvOne, Option.some.injEq, Prod.mk.injEq] at h
    obtain ⟨rfl, rfl⟩ := h
    refine ⟨?_, by simp, ?_⟩ <;>
      cases hc : cfg.clientTLS <;>
        cases hl : load cfg.caCerts cfg.serverCert cfg.serverKey <;>
          simp [mainTrace, isRecv, afterRecv, hc, hl, List.filter]

/-- Witness for C4 at the default configuration with the queue holding the
single outcome `"conn refused"`. -/
theorem C4_orchestrator_single_receive_witness :
    (mainTrace defaultCfg (fun _ _ _ => Except.ok {}) "conn refused").filter isRecv
        = [MainAction.recv "conn refused"] ∧
    ([] : List String).length + 1 = ["conn refused"].length ∧
    afterRecv (mainTrace defaultCfg (fun _ _ _ => Except.ok {}) "conn refused")
        = [MainAction.logError ("mProxy terminated: " ++ "conn refused")] :=
  C4_orchestrator_single_receive defaultCfg (fun _ _ _ => Except.ok {})
    ["conn refused"] "conn refused" [] rfl

/-- Claim C5: every listener goroutine performs exactly one send on the
shared channel — the result of its listen call — and the signal watcher
sends exactly one value, the received signal's description. -/
theorem C5_each_source_sends_once (cfg : config) (tlsCfg : TLSCfg) (hd : Handler)
    (lws : wsProxy → String → String)
    (lwss : wsProxy → TLSCfg → String → String → String → String)
    (lm : mqttProxy → String) (lms : mqttProxy → TLSCfg → String) (sig : String) :
    (proxyWS cfg hd lws).sends
        = [lws (websocketNew (cfg.wsTargetHost ++ ":" ++ cfg.wsTargetPort)
            cfg.wsTargetPath cfg.wsTargetScheme hd) cfg.wsPort] ∧
    (proxyWS cfg hd lws).sends.length = 1 ∧
    (proxyWSS cfg tlsCfg hd lwss).sends
        = [lwss (websocketNew (cfg.wsTargetHost ++ ":" ++ cfg.wsTargetPort)
            cfg.wsTargetPath cfg.wsTargetScheme hd) tlsCfg cfg.serverCert cfg.serverKey cfg.wssPort] ∧
    (proxyWSS cfg tlsCfg hd lwss).sends.length = 1 ∧
    (proxyMQTT cfg hd lm).sends
        = [lm (brokerNew (cfg.mqttHost ++ ":" ++ cfg.mqttPort)
            (cfg.mqttTargetHost ++ ":" ++ cfg.mqttTargetPort) hd)] ∧
    (proxyMQTT cfg hd lm).sends.length = 1 ∧
    (proxyMQTTS cfg tlsCfg hd lms).sends
        = [lms (brokerNew (cfg.mqttHost ++ ":" ++ cfg.mqttsPort)
            (cfg.mqttTargetHost ++ ":" ++ cfg.mqttTargetPort) hd) tlsCfg] ∧
    (proxyMQTTS cfg tlsCfg hd lms).sends.length = 1 ∧
    signalWatcher sig = [sig] ∧
    (signalWatcher sig).length = 1 :=
  ⟨rfl, rfl, rfl, rfl, rfl, rfl, rfl, rfl, rfl, rfl⟩

/-- Behaviour of `env` on the three shapes of environment entry: unset,
set to the empty string, set to a non-empty value. -/
lemma env_cases (e : Env) (key fb : String) :
    (e key = none → env e key fb = fb) ∧
    (e key = some "" → env e key fb = fb) ∧
    (∀ v, e key = some v → v ≠ "" → env e key fb = v) := by
  refine ⟨fun h => ?_, fun h => ?_, fun v hv hne => ?_⟩
  · simp [env, Getenv, h]
  · simp [env, Getenv, h]
  · simp [env, Getenv, hv, hne]

/-- The string-valued configuration fields, each with its environment
variable name and named default, exactly as assigned in `loadConfig`. -/
def stringFieldSpecs : List ((config → String) × String × String) :=
  [(config.wsHost, envWSHost, defWSHost),
   (config.wsPort, envWSPort, defWSPort),
   (config.wsPath, envWSPath, defWSPath),
   (config.wssPort, envWSSPort, defWSSPort),
   (config.wssPath, envWSSPath, defWSSPath),
   (config.wsTargetScheme, envWSTargetScheme, defWSTargetScheme),
   (config.wsTargetHost, envWSTargetHost, defWSTargetHost),
   (config.wsTargetPort, envWSTargetPort, defWSTargetPort),
   (config.wsTargetPath, envWSTargetPath, defWSTargetPath),
   (config.mqttHost, envMQTTHost, defMQTTHost),
   (config.mqttPort, envMQTTPort, defMQTTPort),
   (config.mqttsPort, envMQTTSPort, defMQTTSPort),
   (config.mqttTargetHost, envMQTTTargetHost, defMQTTTargetHost),
   (config.mqttTargetPort, envMQTTTargetPort, defMQTTTargetPort),
   (config.caCerts, envCACerts, defCACerts),
   (config.serverCert, envServerCert, defServerCert),
   (config.serverKey, envServerKey, defServerKey),
   (config.logLevel, envLogLevel, defLogLevel)]

/-- The environment where `MPROXY_WS_PORT` is present with the empty value
and everything else is unset. -/
def envEmptyWSPort : Env := fun k =>
  if k = envWSPort then some "" else none

/-- Claim C6, counterexample: with `MPROXY_WS_PORT` present but holding
the empty string, the loaded WS port is the default `"8083"`, not the
present value `""` — so a present variable's value is not always used
exactly, refuting the claim as stated. -/
theorem C6_present_value_not_used :
    envEmptyWSPort envWSPort = some "" ∧
    (loadConfig envEmptyWSPort).map config.wsPort = some "8083" ∧
    (loadConfig envEmptyWSPort).map config.wsPort ≠ some "" := by
  refine ⟨by decide, by decide, by decide⟩

/-- Claim C6 (amended): when a configuration field's environment variable
is absent — or present with the empty value, which Go's `os.Getenv` cannot
distinguish from absent — the field takes its named default; when the
variable is present with a non-empty value, that value is used exactly
(for the TLS flag, its parsed boolean). -/
theorem C6_defaults_and_overrides (e : Env) (cfg : config)
    (h : loadConfig e = some cfg) :
    (∀ fs ∈ stringFieldSpecs,
        (e fs.2.1 = none → fs.1 cfg = fs.2.2) ∧
        (e fs.2.1 = some "" → fs.1 cfg = fs.2.2) ∧
        (∀ v, e fs.2.1 = some v → v ≠ "" → fs.1 cfg = v)) ∧
    (e envClientTLS = none → cfg.clientTLS = false) ∧
    (e envClientTLS = some "" → cfg.clientTLS = false) ∧
    (∀ v b, e envClientTLS = some v → v ≠ "" → ParseBool v = some b → cfg.clientTLS = b) := by
  obtain ⟨tls, hp, rfl⟩ := Option.map_eq_some'.mp h
  refine ⟨?_, ?_, ?_, ?_⟩
  · intro fs hfs
    fin_cases hfs <;> exact env_cases e _ _
  · intro hnone
    have he : env e envClientTLS defClientTLS = defClientTLS :=
      (env_cases e envClientTLS defClientTLS).1 hnone
    rw [he] at hp
    have hfb : ParseBool defClientTLS = some false := by decide
    exact (Option.some.inj (hfb.symm.trans hp)).symm
  · intro hempty
    have he : env e envClientTLS defClientTLS = defClientTLS :=
      (env_cases e envClientTLS defClientTLS).2.1 hempty
    rw [he] at hp
    have hfb : ParseBool defClientTLS = some false := by decide
    exact (Option.some.inj (hfb.symm.trans hp)).symm
  · intro v b hv hne hpb
    have he : env e envClientTLS defClientTLS = v :=
      (env_cases e envClientTLS defClientTLS).2.2 v hv hne
    rw [he] at hp
    exact (Option.some.inj (hpb.symm.trans hp)).symm

/-- The environment where `MPROXY_CLIENT_TLS` is present with the empty
value and everything else is unset. -/
def envEmptyClientTLS : Env := fun k =>
  if k = envClientTLS then some "" else none

/-- Witness for the amended C6: at the all-unset environment the defaults
named by the spec come out (WS port 8083, MQTT port 1884, TLS flag false),
and at `MPROXY_CLIENT_TLS=""` the TLS flag is likewise its default false. -/
theorem C6_defaults_and_overrides_witness :
    loadConfig envAllUnset = some defaultCfg ∧
    defaultCfg.wsPort = "8083" ∧
    defaultCfg.mqttPort = "1884" ∧
    defaultCfg.clientTLS = false ∧
    loadConfig envEmptyClientTLS = some defaultCfg := by
  have hload : loadConfig envAllUnset = some defaultCfg := by decide
  have hmain := C6_defaults_and_overrides envAllUnset defaultCfg hload
  have hload2 : loadConfig envEmptyClientTLS = some defaultCfg := by decide
  have hmain2 := C6_defaults_and_overrides envEmptyClientTLS defaultCfg hload2
  refine ⟨hload, ?_, ?_, hmain2.2.2.1 rfl, hload2⟩
  · exact (hmain.1 (config.wsPort, envWSPort, defWSPort) (by simp [stringFieldSpecs])).1 rfl
  · exact (hmain.1 (config.mqttPort, envMQTTPort, defMQTTPort) (by simp [stringFieldSpecs])).1 rfl

/-- Sends never block while the buffer stays within capacity. -/
lemma sendAll_isSome (xs : List String) (buf : List String)
    (h : buf.length + xs.length ≤ chanCap) : (sendAll buf xs).isSome := by
  induction xs generalizing buf with
  | nil => simp [sendAll]
  | cons x rest ih =>
    simp only [List.length_cons] at h
    have hlt : buf.length < chanCap := by omega
    rw [sendAll, if_pos hlt]
    exact ih (buf ++ [x]) (by simp; omega)

/-- Claim C7: the shutdown channel's capacity (3) is at least the number
of concurrent terminal sources of either branch (the branch's two
listeners plus the signal watcher), so however those sources' single sends
are ordered, starting from the empty buffer none of them blocks — even if
the orchestrator never receives. -/
theorem C7_capacity_covers_senders (tls : Bool) (outcome : TerminalSource → String)
    (cfg : config) (load : String → String → String → Except String TLSCfg)
    (observed : String) :
    (branchSenders tls).length ≤ chanCap ∧
    (sendAll [] ((branchSenders tls).map outcome)).isSome = true ∧
    (startedListeners (mainTrace cfg load observed)).length + 1
        = (branchSenders cfg.clientTLS).length := by
  refine ⟨?_, ?_, ?_⟩
  · cases tls <;> simp [branchSenders, chanCap]
  · exact sendAll_isSome _ _ (by cases tls <;> simp [branchSenders, chanCap])
  · cases hc : cfg.clientTLS <;>
      cases hl : load cfg.caCerts cfg.serverCert cfg.serverKey <;>
        simp [mainTrace, startedListeners, branchSenders, hc, hl]

/-- Claim C8: the supplied `Handler` carries no fields, so any two handler
values are equal and every handler method is a deterministic pure function
of its arguments alone: two invocations with equal arguments — on any two
handler instances — produce identical observable results (returned error
and emitted log line). -/
theorem C8_handler_stateless :
    (∀ h1 h2 : Handler, h1 = h2) ∧
    (∀ (h1 h2 : Handler) (c : Client),
        Handler.AuthConnect h1 c = Handler.AuthConnect h2 c) ∧
    (∀ (h1 h2 : Handler) (c : Client) (t p : String),
        Handler.AuthPublish h1 c t p = Handler.AuthPublish h2 c t p) ∧
    (∀ (h1 h2 : Handler) (c : Client) (ts : List String),
        Handler.AuthSubscribe h1 c ts = Handler.AuthSubscribe h2 c ts) ∧
    (∀ (h1 h2 : Handler) (c : Client),
        Handler.Connect h1 c = Handler.Connect h2 c) ∧
    (∀ (h1 h2 : Handler) (c : Client) (t p : String),
        Handler.Publish h1 c t p = Handler.Publish h2 c t p) ∧
    (∀ (h1 h2 : Handler) (c : Client) (ts : List String),
        Handler.Subscribe h1 c ts = Handler.Subscribe h2 c ts) ∧
    (∀ (h1 h2 : Handler) (c : Client) (ts : List String),
        Handler.Unsubscribe h1 c ts = Handler.Unsubscribe h2 c ts) ∧
    (∀ (h1 h2 : Handler) (c : Client),
        Handler.Disconnect h1 c = Handler.Disconnect h2 c) := by
  refine ⟨fun h1 h2 => ?_, fun _ _ _ => rfl, fun _ _ _ _ _ => rfl,
    fun _ _ _ _ => rfl, fun _ _ _ => rfl, fun _ _ _ _ _ => rfl,
    fun _ _ _ _ => rfl, fun _ _ _ _ => rfl, fun _ _ _ => rfl⟩
  cases h1
  cases h2
  rfl

/-- Claim C9: the supplied handler's three pre-action gates return nil for
every client, topic, topic set, and payload: no connect, publish, or
subscribe is ever denied. -/
theorem C9_auth_gates_always_allow (hd : Handler) (c : Client)
    (topic payload : String) (topics : List String) :
    (Handler.AuthConnect hd c).err = none ∧
    (Handler.AuthPublish hd c topic payload).err = none ∧
    (Handler.AuthSubscribe hd c topics).err = none :=
  ⟨rfl, rfl, rfl⟩

/-- Claim C10: `env` returns the fallback whenever the variable's value is
the empty string, so an environment with the variable explicitly set to
`""` is indistinguishable (through `env`) from one with it unset: an empty
value can never override a non-empty default. -/
theorem C10_empty_value_is_fallback (e : Env) (key fb : String)
    (h : e key = some "") :
    env e key fb = fb ∧
    env e key fb = env (fun k => if k = key then none else e k) key fb := by
  refine ⟨(env_cases e key fb).2.1 h, ?_⟩
  have h2 : (fun k => if k = key then none else e k) key = (none : Option String) := by
    simp
  rw [(env_cases e key fb).2.1 h,
      (env_cases (fun k => if k = key then none else e k) key fb).1 h2]

/-- Witness for C10 at `MPROXY_WS_PORT=""`: `env` yields the default
`"8083"`, the same as with the variable deleted. -/
theorem C10_empty_value_is_fallback_witness :
    envEmptyWSPort envWSPort = some "" ∧
    env envEmptyWSPort envWSPort defWSPort = defWSPort ∧
    env envEmptyWSPort envWSPort defWSPort
        = env (fun k => if k = envWSPort then none else envEmptyWSPort k) envWSPort defWSPort :=
  ⟨by decide,
   (C10_empty_value_is_fallback envEmptyWSPort envWSPort defWSPort (by decide)).1,
   (C10_empty_value_is_fallback envEmptyWSPort envWSPort defWSPort (by decide)).2⟩

end Mproxy
